import Mathlib

/-!
# VehicleSys: the CAN bus controller

A shallow embedding of `src/controllers/src/canbuscontroller.cpp`
(class `CanBusController`) and the properties of its simulation tick,
frame encoders and connection handling.

Modelling conventions.

* The class header is not among the sources.  The vehicle members are taken
  to be C++ `int` (they are passed to `qBound (0, m_speed + speedChange, 120)`
  together with `int` literals, which the template only accepts when all three
  arguments have the same type).  They are embedded as `Int`; every narrowing
  the source performs (`quint16`, `quint8`, `static_cast<char>`) is an explicit
  reduction modulo `2 ^ 16` or `2 ^ 8`.
  Arithmetic on the members themselves is exact: in every state reachable from
  construction they stay within the ranges of C1, far from the limits of `int`.
* A payload byte is the unsigned value `0 .. 255` of the stored `char`.
* The random generator is replaced by an explicit record of the draws of one
  tick, so that a statement quantified over the record covers every outcome.
* The function-local `static int timeCounter` is a field of the state.
* `HAVE_QT_SERIALBUS` is a boolean parameter of every operation that the
  preprocessor splits on.  The outcome of `QCanBus::createDevice` and of
  `QCanBusDevice::connectDevice` at one call is an explicit `Adapter` record.
* Signals emitted and frames written to the device are returned as a list of
  `Effect`s, in program order.
-/

namespace VehicleSys

/-! ## Qt helpers -/

/-- Qt `qMin`: `(a < b) ? a : b`. -/
def qMin (a b : Int) : Int := if a < b then a else b

/-- Qt `qMax`: `(a < b) ? b : a`. -/
def qMax (a b : Int) : Int := if a < b then b else a

/-- Qt `qBound (min, val, max)`: `qMax (min, qMin (max, val))`. -/
def qBound (min val max : Int) : Int := qMax min (qMin max val)

/-- Conversion of an `int` to `quint16`: reduction modulo `2 ^ 16`. -/
def toQuint16 (x : Int) : Nat := (x % 65536).toNat

/-- Conversion of an `int` to `quint8`: reduction modulo `2 ^ 8`. -/
def toQuint8 (x : Int) : Nat := (x % 256).toNat

/-- The byte stored by `static_cast<char> (x)`, read back as `0 .. 255`. -/
def toChar (x : Int) : Nat := (x % 256).toNat

/-- The value of `m_fuelLevel / 0.392157` converted to an integer, which C++
truncates toward zero.  The constant is taken as the exact rational
`392157 / 1000000`.  For `0 ≤ fuel ≤ 100` the exact quotient is either `0` or at
least `1 / 392157` away from every integer, far more than the rounding error of
a double division, so the truncation agrees with the floating-point one. -/
def fuelRaw (fuel : Int) : Int := Int.tdiv (fuel * 1000000) 392157

/-! ## Observable effects -/

/-- The four Qt signals of the controller, and `writeFrame` calls on the device. -/
inductive Effect where
  | statusChanged (status : String)
  | connectedChanged (connected : Bool)
  | frameReceived (frameId : Nat) (payload : List Nat)
  | errorOccurred (message : String)
  | writeFrame (frameId : Nat) (data : List Nat)
  deriving DecidableEq

/-- States a `QCanBusDevice` reports through `stateChanged`. -/
inductive CanBusDeviceState where
  | UnconnectedState
  | ConnectingState
  | ConnectedState
  | ClosingState

/-- Behaviour of the hardware layer at one call: the result of `createDevice`
(`none` is a null pointer, `some h` a fresh device `h`) and of `connectDevice`. -/
structure Adapter where
  createDevice : Option Nat
  connectDevice : Bool

/-- The random draws of one tick, in the order the source takes them. -/
structure Draws where
  /-- Value of `rng->bounded (-2, 3)`. -/
  speedChange : Int
  /-- Value of `rng->bounded (-100, 101)`. -/
  rpmNoise : Int
  /-- Value of `rng->bounded (0, 1000)`; only drawn when `m_speed > 0`. -/
  fuelDraw : Int
  /-- Value of `rng->bounded (-1, 2)`. -/
  tempChange : Int
  /-- First `rng->bounded (0, 100)`. -/
  leftDraw : Int
  /-- Second `rng->bounded (0, 100)`. -/
  rightDraw : Int

/-- The draws lie in the ranges `QRandomGenerator::bounded` returns. -/
def Draws.valid (d : Draws) : Prop :=
  (-2 ≤ d.speedChange ∧ d.speedChange ≤ 2) ∧
  (-100 ≤ d.rpmNoise ∧ d.rpmNoise ≤ 100) ∧
  (0 ≤ d.fuelDraw ∧ d.fuelDraw ≤ 999) ∧
  (-1 ≤ d.tempChange ∧ d.tempChange ≤ 1) ∧
  (0 ≤ d.leftDraw ∧ d.leftDraw ≤ 99) ∧
  (0 ≤ d.rightDraw ∧ d.rightDraw ≤ 99)

instance (d : Draws) : Decidable d.valid := by
  unfold Draws.valid
  infer_instance

/-! ## The controller state -/

/-- Members of `CanBusController`, the activity of `m_simulationTimer`, and the
static `timeCounter` of `simulateVehicleData`. -/
structure CanBusController where
  /-- The device pointer; `none` is `nullptr`.  Absent without `HAVE_QT_SERIALBUS`. -/
  m_canDevice : Option Nat
  /-- Whether `m_simulationTimer` is running. -/
  timerActive : Bool
  /-- Interval of `m_simulationTimer` in milliseconds. -/
  timerInterval : Nat
  m_connected : Bool
  m_status : String
  m_speed : Int
  m_rpm : Int
  m_fuelLevel : Int
  m_engineTemp : Int
  m_leftTurnSignal : Bool
  m_rightTurnSignal : Bool
  m_headlights : Bool
  m_engineRunning : Bool
  timeCounter : Int
  /-- Ghost field: the devices created and not yet deleted.  Only these can
  deliver `framesReceived`, `errorOccurred` and `stateChanged`. -/
  liveDevices : List Nat

namespace CanBusController

/-- `CanBusController::setupSimulatedData`. -/
def setupSimulatedData (c : CanBusController) : CanBusController :=
  { c with
    m_speed := 0
    m_rpm := 800
    m_fuelLevel := 85
    m_engineTemp := 90
    m_leftTurnSignal := false
    m_rightTurnSignal := false
    m_headlights := false
    m_engineRunning := true }

/-- The constructor: member initialisers, then `setupSimulatedData`. -/
def construct : CanBusController :=
  setupSimulatedData
    { m_canDevice := none
      timerActive := false
      timerInterval := 0
      m_connected := false
      m_status := "Disconnected"
      m_speed := 0
      m_rpm := 800
      m_fuelLevel := 85
      m_engineTemp := 90
      m_leftTurnSignal := false
      m_rightTurnSignal := false
      m_headlights := false
      m_engineRunning := true
      timeCounter := 0
      liveDevices := [] }

/-! ## Frame encoders (the second half of `simulateVehicleData`) -/

/-- Payload of frame `0x100`, `engineData` in the source. -/
def engineData (c : CanBusController) : List Nat :=
  let engineData := List.replicate 8 0
  let rpmRaw := toQuint16 (c.m_rpm * 4)
  let engineData := engineData.set 0 (toChar ((rpmRaw &&& 0xFF : Nat) : Int))
  let engineData := engineData.set 1 (toChar (((rpmRaw >>> 8) &&& 0xFF : Nat) : Int))
  let engineData := engineData.set 2 (toChar 50)
  let engineData := engineData.set 3 (toChar (c.m_engineTemp + 40))
  let engineData := engineData.set 4 (toChar (qMin 100 (c.m_speed * 2)))
  let engineData := engineData.set 5 (toChar 150)
  let engineData := engineData.set 6 (toChar 0)
  let engineData := engineData.set 7 (toChar (fuelRaw c.m_fuelLevel))
  engineData

/-- Payload of frame `0x200`, `speedData` in the source. -/
def speedData (c : CanBusController) : List Nat :=
  let speedData := List.replicate 8 0
  let speedRaw := toQuint16 (c.m_speed * 10)
  let speedData := speedData.set 0 (toChar ((speedRaw &&& 0xFF : Nat) : Int))
  let speedData := speedData.set 1 (toChar (((speedRaw >>> 8) &&& 0xFF : Nat) : Int))
  let speedData := speedData.set 2 (speedData.getD 0 0)
  let speedData := speedData.set 3 (speedData.getD 1 0)
  let speedData := speedData.set 4 (speedData.getD 0 0)
  let speedData := speedData.set 5 (speedData.getD 1 0)
  let speedData := speedData.set 6 (speedData.getD 0 0)
  let speedData := speedData.set 7 (speedData.getD 1 0)
  speedData

/-- Payload of frame `0x400`, `transData` in the source. -/
def transData (c : CanBusController) : List Nat :=
  let transData := List.replicate 8 0
  let gearValue := toQuint8 (if c.m_speed > 0 then 3 else 0)
  let transData := transData.set 0 (toChar ((gearValue &&& 0x0F : Nat) : Int))
  let parkStatus := toQuint8 (if c.m_speed = 0 then 0x02 else 0x00)
  let transData := transData.set 2 (toChar (parkStatus : Int))
  transData

/-- Payload of frame `0x500`, `batteryData` in the source. -/
def batteryData (c : CanBusController) : List Nat :=
  let batteryData := List.replicate 8 0
  let voltageRaw := toQuint16 1400
  let voltageRaw := if !c.m_engineRunning then toQuint16 1200 else voltageRaw
  let batteryData := batteryData.set 0 (toChar ((voltageRaw &&& 0xFF : Nat) : Int))
  let batteryData := batteryData.set 1 (toChar (((voltageRaw >>> 8) &&& 0xFF : Nat) : Int))
  batteryData

/-- Payload of frame `0x600`, `signalsData` in the source. -/
def signalsData (c : CanBusController) : List Nat :=
  let signalsData := List.replicate 8 0
  let signalsData := signalsData.set 0 0
  let signalBits : Nat := toQuint8 0
  let signalBits := if c.m_leftTurnSignal then signalBits ||| 0x01 else signalBits
  let signalBits := if c.m_rightTurnSignal then signalBits ||| 0x02 else signalBits
  let signalBits := if c.m_headlights then signalBits ||| 0x04 else signalBits
  let signalsData := signalsData.set 1 (toChar (signalBits : Int))
  signalsData

/-! ## The simulation tick -/

/-- Speed variation (source lines 233-235); `speedChange` is the draw. -/
def updateSpeed (speedChange : Int) (c : CanBusController) : CanBusController :=
  { c with m_speed := qBound 0 (c.m_speed + speedChange) 120 }

/-- Rpm follows the speed just stored (source lines 237-239); `rpmNoise` is the
draw added to `targetRpm`. -/
def updateRpm (rpmNoise : Int) (c : CanBusController) : CanBusController :=
  let targetRpm := 800 + (c.m_speed * 25)
  { c with m_rpm := qBound 700 (targetRpm + rpmNoise) 6000 }

/-- Engine running determination (source lines 241-242). -/
def updateEngineRunning (c : CanBusController) : CanBusController :=
  { c with m_engineRunning := decide (c.m_rpm > 500) }

/-- Fuel consumption (source lines 244-247); `fuelDraw` is the draw compared
with 1. -/
def updateFuelLevel (fuelDraw : Int) (c : CanBusController) : CanBusController :=
  if c.m_speed > 0 ∧ fuelDraw < 1 then
    { c with m_fuelLevel := qMax 0 (c.m_fuelLevel - 1) }
  else c

/-- Engine temperature (source lines 249-251); `tempChange` is the draw. -/
def updateEngineTemp (tempChange : Int) (c : CanBusController) : CanBusController :=
  { c with m_engineTemp := qBound 70 (c.m_engineTemp + tempChange) 110 }

/-- First turn-signal statement (source lines 254-257). -/
def toggleLeftTurnSignal (leftDraw : Int) (c : CanBusController) : CanBusController :=
  if leftDraw < 2 then
    { c with m_leftTurnSignal := !c.m_leftTurnSignal, m_rightTurnSignal := false }
  else c

/-- Second turn-signal statement (source lines 258-261). -/
def toggleRightTurnSignal (rightDraw : Int) (c : CanBusController) : CanBusController :=
  if rightDraw < 2 then
    { c with m_rightTurnSignal := !c.m_rightTurnSignal, m_leftTurnSignal := false }
  else c

/-- The statement `timeCounter++` (source line 265). -/
def incrementTimeCounter (c : CanBusController) : CanBusController :=
  { c with timeCounter := c.timeCounter + 1 }

/-- Headlights toggle every 300 ticks (source lines 266-268). -/
def updateHeadlights (c : CanBusController) : CanBusController :=
  if c.timeCounter % 300 = 0 then
    { c with m_headlights := !c.m_headlights }
  else c

/-- The state update of `simulateVehicleData` (source lines 233-268): its
statements in source order. -/
def updateVehicle (d : Draws) (c : CanBusController) : CanBusController :=
  c |> updateSpeed d.speedChange
    |> updateRpm d.rpmNoise
    |> updateEngineRunning
    |> updateFuelLevel d.fuelDraw
    |> updateEngineTemp d.tempChange
    |> toggleLeftTurnSignal d.leftDraw
    |> toggleRightTurnSignal d.rightDraw
    |> incrementTimeCounter
    |> updateHeadlights

/-- The five `emit frameReceived` of `simulateVehicleData` (source lines 270-335). -/
def emitFrames (c : CanBusController) : List Effect :=
  [ Effect.frameReceived 0x100 (engineData c),
    Effect.frameReceived 0x200 (speedData c),
    Effect.frameReceived 0x400 (transData c),
    Effect.frameReceived 0x500 (batteryData c),
    Effect.frameReceived 0x600 (signalsData c) ]

/-- `CanBusController::simulateVehicleData`: one timer tick. -/
def simulateVehicleData (d : Draws) (c : CanBusController) :
    CanBusController × List Effect :=
  let c := updateVehicle d c
  (c, emitFrames c)

/-! ## Connection handling

Slots connected to the device (`handleFramesReceived`, `handleErrorOccurred`,
`handleStateChanged`) run as steps of their own, never inside another
operation: one handler executes at a time. -/

/-- Pointer update `m_canDevice = createDevice (...)`; a created device is live. -/
def createDevice (a : Adapter) (c : CanBusController) : CanBusController :=
  match a.createDevice with
  | some h => { c with m_canDevice := some h, liveDevices := h :: c.liveDevices }
  | none => { c with m_canDevice := none }

/-- The statements `delete m_canDevice; m_canDevice = nullptr;`. -/
def deleteDevice (c : CanBusController) : CanBusController :=
  match c.m_canDevice with
  | some h => { c with m_canDevice := none, liveDevices := c.liveDevices.erase h }
  | none => c

/-- Tail of `disconnectFromSimulator` (source lines 151-156 and 158-163). -/
def noCanBusAvailable (c : CanBusController) : CanBusController × List Effect :=
  let c := { c with m_connected := false }
  let c := { c with m_status := "CAN Control Mode (No CAN Bus Available)" }
  (c, [Effect.connectedChanged c.m_connected, Effect.statusChanged c.m_status])

/-- `CanBusController::disconnectFromSimulator`. -/
def disconnectFromSimulator (haveSerialBus : Bool) (a : Adapter) (c : CanBusController) :
    CanBusController × List Effect :=
  let c := { c with timerActive := false }
  if haveSerialBus then
    let c := if c.m_canDevice.isSome then deleteDevice c else c
    let c := createDevice a c
    if c.m_canDevice.isSome then
      if a.connectDevice then
        let c := { c with m_status := "Connecting to CAN Bus..." }
        (c, [Effect.statusChanged c.m_status])
      else
        noCanBusAvailable (deleteDevice c)
    else
      noCanBusAvailable c
  else
    noCanBusAvailable c

/-- `CanBusController::connectToSimulator`. -/
def connectToSimulator (haveSerialBus : Bool) (a : Adapter) (c : CanBusController) :
    CanBusController × List Effect :=
  if c.m_status ≠ "Simulation Mode Active" then
    let r := if c.m_connected then disconnectFromSimulator haveSerialBus a c else (c, [])
    let c := r.1
    let c := { c with m_status := "Simulation Mode Active" }
    let c := { c with m_connected := true }
    let c := { c with timerActive := true, timerInterval := 100 }
    (c, r.2 ++ [Effect.statusChanged c.m_status, Effect.connectedChanged c.m_connected])
  else
    (c, [])

/-- Tail of `connectToBus` (source lines 110-115). -/
def startSimulationFallback (c : CanBusController) : CanBusController × List Effect :=
  let c := { c with m_status := "Simulation Mode Active" }
  let c := { c with m_connected := true }
  let c := { c with timerActive := true, timerInterval := 100 }
  (c, [Effect.connectedChanged c.m_connected, Effect.statusChanged c.m_status])

/-- `CanBusController::connectToBus`.  The interface name only selects the
device the hardware layer tries to create, whose outcome is `a`. -/
def connectToBus (haveSerialBus : Bool) (_interface : String) (a : Adapter)
    (c : CanBusController) : CanBusController × List Effect :=
  if c.m_connected then
    (c, [])
  else if haveSerialBus then
    let c := createDevice a c
    if c.m_canDevice.isSome then
      if a.connectDevice then
        let c := { c with m_status := "Connecting to CAN Bus..." }
        (c, [Effect.statusChanged c.m_status])
      else
        startSimulationFallback (deleteDevice c)
    else
      startSimulationFallback c
  else
    startSimulationFallback c

/-- `CanBusController::sendFrame`. -/
def sendFrame (haveSerialBus : Bool) (frameId : Nat) (data : List Nat)
    (c : CanBusController) : CanBusController × List Effect :=
  if haveSerialBus then
    if c.m_canDevice.isNone ∨ !c.m_connected then
      (c, [])
    else
      (c, [Effect.writeFrame frameId data])
  else
    (c, [])

/-- `CanBusController::handleFramesReceived`; `frames` are the frames the
device has available, each with its identifier, payload and validity. -/
def handleFramesReceived (frames : List (Nat × List Nat × Bool)) (c : CanBusController) :
    CanBusController × List Effect :=
  if c.m_canDevice.isNone then
    (c, [])
  else
    (c, (frames.filter (fun f => f.2.2)).map (fun f => Effect.frameReceived f.1 f.2.1))

/-- `CanBusController::handleErrorOccurred`; `errorString` is the text the
device reports. -/
def handleErrorOccurred (errorString : String) (c : CanBusController) :
    CanBusController × List Effect :=
  if c.m_canDevice.isSome then
    let c := { c with m_status := "Error: " ++ errorString }
    (c, [Effect.statusChanged c.m_status, Effect.errorOccurred errorString])
  else
    (c, [])

/-- `CanBusController::handleStateChanged`. -/
def handleStateChanged (state : CanBusDeviceState) (c : CanBusController) :
    CanBusController × List Effect :=
  let c := match state with
    | .ConnectedState => { c with m_connected := true, m_status := "Connected to CAN Bus" }
    | .ConnectingState => { c with m_status := "Connecting to CAN Bus" }
    | .UnconnectedState =>
        { c with m_connected := false, m_status := "Disconnected from CAN Bus" }
    | .ClosingState => c
  (c, [Effect.connectedChanged c.m_connected, Effect.statusChanged c.m_status])

end CanBusController

/-! ## Runs of the controller -/

/-- What can happen to a controller: a public call, a timer tick, or a signal
of a live device. -/
inductive Action where
  | connectToSimulator (a : Adapter)
  | connectToBus (interface : String) (a : Adapter)
  | disconnectFromSimulator (a : Adapter)
  | sendFrame (frameId : Nat) (data : List Nat)
  | timeout (d : Draws)
  | framesReceived (frames : List (Nat × List Nat × Bool))
  | errorOccurred (errorString : String)
  | stateChanged (state : CanBusDeviceState)

/-- An action can happen: the timer fires only while it runs, and a device
signal needs a live device (which exists only with `HAVE_QT_SERIALBUS`). -/
def Action.enabled (haveSerialBus : Bool) (c : CanBusController) : Action → Bool
  | .timeout _ => c.timerActive
  | .framesReceived _ => haveSerialBus && !c.liveDevices.isEmpty
  | .errorOccurred _ => haveSerialBus && !c.liveDevices.isEmpty
  | .stateChanged _ => haveSerialBus && !c.liveDevices.isEmpty
  | _ => true

/-- One step: the operation the action stands for; an action that cannot
happen leaves the controller alone. -/
def step (haveSerialBus : Bool) (c : CanBusController) (act : Action) :
    CanBusController × List Effect :=
  if act.enabled haveSerialBus c then
    match act with
    | .connectToSimulator a => c.connectToSimulator haveSerialBus a
    | .connectToBus interface a => c.connectToBus haveSerialBus interface a
    | .disconnectFromSimulator a => c.disconnectFromSimulator haveSerialBus a
    | .sendFrame frameId data => c.sendFrame haveSerialBus frameId data
    | .timeout d => c.simulateVehicleData d
    | .framesReceived frames => c.handleFramesReceived frames
    | .errorOccurred errorString => c.handleErrorOccurred errorString
    | .stateChanged state => c.handleStateChanged state
  else
    (c, [])

/-- The controller after a sequence of actions, starting in `c`. -/
def run (haveSerialBus : Bool) (c : CanBusController) : List Action → CanBusController
  | [] => c
  | act :: acts => run haveSerialBus (step haveSerialBus c act).1 acts

/-- The controller after a sequence of ticks, starting in `c`. -/
def runTicks (c : CanBusController) : List Draws → CanBusController
  | [] => c
  | d :: ds => runTicks (c.simulateVehicleData d).1 ds

/-- States reachable from construction. -/
def Reachable (haveSerialBus : Bool) (c : CanBusController) : Prop :=
  ∃ acts : List Action, c = run haveSerialBus CanBusController.construct acts

/-! ## Predicates and sample inputs used in the statements -/

namespace CanBusController

/-- The four ranges of the vehicle values. -/
def inRange (c : CanBusController) : Prop :=
  (0 ≤ c.m_speed ∧ c.m_speed ≤ 120) ∧ (700 ≤ c.m_rpm ∧ c.m_rpm ≤ 6000) ∧
  (0 ≤ c.m_fuelLevel ∧ c.m_fuelLevel ≤ 100) ∧ (70 ≤ c.m_engineTemp ∧ c.m_engineTemp ≤ 110)

/-- Two controller states carry the same vehicle state. -/
def sameVehicle (c c1 : CanBusController) : Prop :=
  c1.m_speed = c.m_speed ∧ c1.m_rpm = c.m_rpm ∧ c1.m_fuelLevel = c.m_fuelLevel ∧
  c1.m_engineTemp = c.m_engineTemp ∧ c1.m_leftTurnSignal = c.m_leftTurnSignal ∧
  c1.m_rightTurnSignal = c.m_rightTurnSignal ∧ c1.m_headlights = c.m_headlights ∧
  c1.m_engineRunning = c.m_engineRunning

/-- At most one turn signal is set. -/
def signalsExclusive (c : CanBusController) : Prop :=
  ¬(c.m_leftTurnSignal = true ∧ c.m_rightTurnSignal = true)

/-- A constructed controller in which both turn signals are set. -/
def bothSignalsSet : CanBusController :=
  { construct with m_leftTurnSignal := true, m_rightTurnSignal := true }

/-- A controller moving at 45 km/h. -/
def cruising : CanBusController :=
  { construct with m_speed := 45, m_rpm := 1925 }

/-- A controller moving at 30 km/h. -/
def inTown : CanBusController :=
  { construct with m_speed := 30, m_rpm := 1550 }

/-- A controller with every vehicle value at the upper end of its range. -/
def upperLimits : CanBusController :=
  { construct with m_speed := 120, m_rpm := 6000, m_fuelLevel := 100, m_engineTemp := 110 }

end CanBusController

/-- Hardware on which the device is created (as device 1) and connects. -/
def busUp : Adapter := { createDevice := some 1, connectDevice := true }

/-- Hardware on which a second device is created (as device 2) and connects. -/
def busUpAgain : Adapter := { createDevice := some 2, connectDevice := true }

/-- Hardware on which no device can be created. -/
def busAbsent : Adapter := { createDevice := none, connectDevice := false }

/-- Largest upward draws; both turn-signal draws fire. -/
def maxDraws : Draws :=
  { speedChange := 2, rpmNoise := 100, fuelDraw := 0, tempChange := 1,
    leftDraw := 0, rightDraw := 1 }

/-- Largest downward draws; no turn-signal draw fires. -/
def minDraws : Draws :=
  { speedChange := -2, rpmNoise := -100, fuelDraw := 999, tempChange := -1,
    leftDraw := 99, rightDraw := 50 }

/-- Draws that change nothing but the rpm noise; no turn-signal draw fires. -/
def quietDraws : Draws :=
  { speedChange := 0, rpmNoise := 0, fuelDraw := 500, tempChange := 0,
    leftDraw := 50, rightDraw := 50 }

/-- Hardware on which the device is created (as device 1) but does not connect. -/
def busRefuses : Adapter := { createDevice := some 1, connectDevice := false }

/-- The controller after connectToSimulator and then disconnectFromSimulator on
hardware that creates and connects the device: status "Connecting to CAN Bus...". -/
def connectingFromSimulation : CanBusController :=
  run true CanBusController.construct
    [Action.connectToSimulator busAbsent, Action.disconnectFromSimulator busUp]

/-- The controller connected to hardware: `connectToBus` succeeded and the
device reported `ConnectedState`. -/
def connectedToHardware : CanBusController :=
  run true CanBusController.construct
    [Action.connectToBus "vcan0" busUp,
     Action.stateChanged CanBusDeviceState.ConnectedState]

/-- The scale of the fuel field, `0.392157`, named in the source at line 287. -/
def fuelScale : ℚ := 392157 / 1000000

/-- The physical value of a raw fuel byte: `raw × 0.392157`. -/
def fuelPhysical (raw : Nat) : ℚ := (raw : ℚ) * fuelScale

/-- In simulation mode the controller is connected and its timer runs at 100 ms. -/
def simulationConsistent (c : CanBusController) : Prop :=
  c.m_status = "Simulation Mode Active" →
    c.m_connected = true ∧ c.timerActive = true ∧ c.timerInterval = 100

/-! ## Field-wise description of the tick -/

namespace CanBusController

theorem updateVehicle_speed (d : Draws) (c : CanBusController) :
    (updateVehicle d c).m_speed = qBound 0 (c.m_speed + d.speedChange) 120 := by
  unfold updateVehicle updateHeadlights incrementTimeCounter toggleRightTurnSignal
    toggleLeftTurnSignal updateEngineTemp updateFuelLevel updateEngineRunning updateRpm
    updateSpeed
  simp only []
  split_ifs <;> rfl

theorem updateVehicle_rpm (d : Draws) (c : CanBusController) :
    (updateVehicle d c).m_rpm =
      qBound 700 (800 + (updateVehicle d c).m_speed * 25 + d.rpmNoise) 6000 := by
  rw [updateVehicle_speed]
  unfold updateVehicle updateHeadlights incrementTimeCounter toggleRightTurnSignal
    toggleLeftTurnSignal updateEngineTemp updateFuelLevel updateEngineRunning updateRpm
    updateSpeed
  simp only []
  split_ifs <;> rfl

theorem updateVehicle_engineRunning (d : Draws) (c : CanBusController) :
    (updateVehicle d c).m_engineRunning = decide ((updateVehicle d c).m_rpm > 500) := by
  rw [updateVehicle_rpm, updateVehicle_speed]
  unfold updateVehicle updateHeadlights incrementTimeCounter toggleRightTurnSignal
    toggleLeftTurnSignal updateEngineTemp updateFuelLevel updateEngineRunning updateRpm
    updateSpeed
  simp only []
  split_ifs <;> rfl

theorem updateVehicle_fuelLevel (d : Draws) (c : CanBusController) :
    (updateVehicle d c).m_fuelLevel =
      if (updateVehicle d c).m_speed > 0 ∧ d.fuelDraw < 1 then qMax 0 (c.m_fuelLevel - 1)
      else c.m_fuelLevel := by
  rw [updateVehicle_speed]
  unfold updateVehicle updateHeadlights incrementTimeCounter toggleRightTurnSignal
    toggleLeftTurnSignal updateEngineTemp updateFuelLevel updateEngineRunning updateRpm
    updateSpeed
  simp only []
  split_ifs <;> rfl

theorem updateVehicle_engineTemp (d : Draws) (c : CanBusController) :
    (updateVehicle d c).m_engineTemp = qBound 70 (c.m_engineTemp + d.tempChange) 110 := by
  unfold updateVehicle updateHeadlights incrementTimeCounter toggleRightTurnSignal
    toggleLeftTurnSignal updateEngineTemp updateFuelLevel updateEngineRunning updateRpm
    updateSpeed
  simp only []
  split_ifs <;> rfl

theorem updateVehicle_leftTurnSignal (d : Draws) (c : CanBusController) :
    (updateVehicle d c).m_leftTurnSignal =
      if d.rightDraw < 2 then false
      else if d.leftDraw < 2 then !c.m_leftTurnSignal else c.m_leftTurnSignal := by
  unfold updateVehicle updateHeadlights incrementTimeCounter toggleRightTurnSignal
    toggleLeftTurnSignal updateEngineTemp updateFuelLevel updateEngineRunning updateRpm
    updateSpeed
  simp only []
  split_ifs <;> rfl

theorem updateVehicle_rightTurnSignal (d : Draws) (c : CanBusController) :
    (updateVehicle d c).m_rightTurnSignal =
      if d.rightDraw < 2 then
        (if d.leftDraw < 2 then true else !c.m_rightTurnSignal)
      else if d.leftDraw < 2 then false else c.m_rightTurnSignal := by
  unfold updateVehicle updateHeadlights incrementTimeCounter toggleRightTurnSignal
    toggleLeftTurnSignal updateEngineTemp updateFuelLevel updateEngineRunning updateRpm
    updateSpeed
  simp only []
  split_ifs <;> rfl

theorem qBound_mem (lo v hi : Int) (h : lo ≤ hi) : lo ≤ qBound lo v hi ∧ qBound lo v hi ≤ hi := by
  unfold qBound qMax qMin
  split_ifs <;> omega

theorem updateVehicle_inRange (d : Draws) (c : CanBusController)
    (hf : 0 ≤ c.m_fuelLevel ∧ c.m_fuelLevel ≤ 100) : inRange (updateVehicle d c) := by
  refine ⟨?_, ?_, ?_, ?_⟩
  · rw [updateVehicle_speed]
    exact qBound_mem _ _ _ (by decide)
  · rw [updateVehicle_rpm]
    exact qBound_mem _ _ _ (by decide)
  · rw [updateVehicle_fuelLevel]
    unfold qMax
    split_ifs <;> omega
  · rw [updateVehicle_engineTemp]
    exact qBound_mem _ _ _ (by decide)

theorem runTicks_inRange (ds : List Draws) (c : CanBusController) (hc : inRange c) :
    inRange (runTicks c ds) := by
  induction ds generalizing c with
  | nil => exact hc
  | cons d ds ih => exact ih _ (updateVehicle_inRange d c hc.2.2.1)

theorem simulateVehicleData_fst (d : Draws) (c : CanBusController) :
    (simulateVehicleData d c).1 = updateVehicle d c := rfl

theorem simulateVehicleData_snd (d : Draws) (c : CanBusController) :
    (simulateVehicleData d c).2 = emitFrames (updateVehicle d c) := rfl

theorem runTicks_append (c : CanBusController) (ds es : List Draws) :
    runTicks c (ds ++ es) = runTicks (runTicks c ds) es := by
  induction ds generalizing c with
  | nil => rfl
  | cons d ds ih => exact ih _

theorem construct_inRange : inRange construct := by
  unfold inRange
  decide

theorem signalsData_eq (c : CanBusController) :
    signalsData c =
      [0, (if c.m_leftTurnSignal then 1 else 0) + (if c.m_rightTurnSignal then 2 else 0) +
            (if c.m_headlights then 4 else 0), 0, 0, 0, 0, 0, 0] := by
  unfold signalsData
  cases c.m_leftTurnSignal <;> cases c.m_rightTurnSignal <;> cases c.m_headlights <;> rfl

theorem mem_emitFrames_signals (c : CanBusController) (p : List Nat)
    (h : Effect.frameReceived 0x600 p ∈ emitFrames c) : p = signalsData c := by
  simpa [emitFrames] using h

theorem toChar_lowByte (n : Nat) : toChar ((n &&& 0xFF : Nat) : Int) = n % 256 := by
  have h : n &&& 0xFF = n % 256 := Nat.and_pow_two_sub_one_eq_mod n 8
  rw [h]
  unfold toChar
  omega

theorem toChar_highByte (n : Nat) :
    toChar (((n >>> 8) &&& 0xFF : Nat) : Int) = n / 256 % 256 := by
  have h : (n >>> 8) &&& 0xFF = (n >>> 8) % 256 := Nat.and_pow_two_sub_one_eq_mod _ 8
  have h2 : n >>> 8 = n / 256 := Nat.shiftRight_eq_div_pow n 8
  rw [h, h2]
  unfold toChar
  omega

theorem speedData_eq (c : CanBusController) :
    speedData c =
      [toQuint16 (c.m_speed * 10) % 256, toQuint16 (c.m_speed * 10) / 256 % 256,
       toQuint16 (c.m_speed * 10) % 256, toQuint16 (c.m_speed * 10) / 256 % 256,
       toQuint16 (c.m_speed * 10) % 256, toQuint16 (c.m_speed * 10) / 256 % 256,
       toQuint16 (c.m_speed * 10) % 256, toQuint16 (c.m_speed * 10) / 256 % 256] := by
  unfold speedData
  simp only [toChar_highByte (toQuint16 (c.m_speed * 10)),
    toChar_lowByte (toQuint16 (c.m_speed * 10))]
  rfl

theorem engineData_eq (c : CanBusController) :
    engineData c =
      [toQuint16 (c.m_rpm * 4) % 256, toQuint16 (c.m_rpm * 4) / 256 % 256, 50,
       toChar (c.m_engineTemp + 40), toChar (qMin 100 (c.m_speed * 2)), 150, 0,
       toChar (fuelRaw c.m_fuelLevel)] := by
  unfold engineData
  simp only [toChar_highByte (toQuint16 (c.m_rpm * 4)),
    toChar_lowByte (toQuint16 (c.m_rpm * 4))]
  rfl

theorem updateVehicle_signals_exclusive (d : Draws) (c : CanBusController)
    (h : ¬(c.m_leftTurnSignal = true ∧ c.m_rightTurnSignal = true) ∨
      d.leftDraw < 2 ∨ d.rightDraw < 2) :
    ¬((updateVehicle d c).m_leftTurnSignal = true ∧
      (updateVehicle d c).m_rightTurnSignal = true) := by
  rw [updateVehicle_leftTurnSignal, updateVehicle_rightTurnSignal]
  rcases h with h | h | h
  · split_ifs <;> revert h <;>
      cases c.m_leftTurnSignal <;> cases c.m_rightTurnSignal <;> simp
  · split_ifs <;> simp
  · split_ifs <;> simp

/-! ## Operations that leave the vehicle state alone -/

theorem sameVehicle_refl (c : CanBusController) : sameVehicle c c :=
  ⟨rfl, rfl, rfl, rfl, rfl, rfl, rfl, rfl⟩

theorem disconnectFromSimulator_vehicle (hw : Bool) (a : Adapter) (c : CanBusController) :
    sameVehicle c (disconnectFromSimulator hw a c).1 := by
  unfold sameVehicle disconnectFromSimulator noCanBusAvailable createDevice deleteDevice
  cases hw <;> cases a.connectDevice <;> cases a.createDevice <;> cases c.m_canDevice <;>
    simp

theorem connectToSimulator_vehicle (hw : Bool) (a : Adapter) (c : CanBusController) :
    sameVehicle c (connectToSimulator hw a c).1 := by
  unfold connectToSimulator
  split_ifs with hs hc
  · exact disconnectFromSimulator_vehicle hw a c
  · exact sameVehicle_refl c
  · exact sameVehicle_refl c

theorem connectToBus_vehicle (hw : Bool) (i : String) (a : Adapter) (c : CanBusController) :
    sameVehicle c (connectToBus hw i a c).1 := by
  unfold sameVehicle connectToBus startSimulationFallback createDevice deleteDevice
  cases hw <;> cases a.connectDevice <;> cases a.createDevice <;> cases c.m_canDevice <;>
    cases c.m_connected <;> simp

theorem sendFrame_vehicle (hw : Bool) (frameId : Nat) (data : List Nat)
    (c : CanBusController) : sameVehicle c (sendFrame hw frameId data c).1 := by
  unfold sendFrame
  split_ifs <;> exact sameVehicle_refl c

theorem handleFramesReceived_vehicle (frames : List (Nat × List Nat × Bool))
    (c : CanBusController) : sameVehicle c (handleFramesReceived frames c).1 := by
  unfold handleFramesReceived
  split_ifs <;> exact sameVehicle_refl c

theorem handleErrorOccurred_vehicle (e : String) (c : CanBusController) :
    sameVehicle c (handleErrorOccurred e c).1 := by
  unfold handleErrorOccurred
  split_ifs <;> exact sameVehicle_refl c

theorem handleStateChanged_vehicle (st : CanBusDeviceState) (c : CanBusController) :
    sameVehicle c (handleStateChanged st c).1 := by
  cases st <;> exact sameVehicle_refl c

/-- Every step other than an enabled timer tick keeps the vehicle state. -/
theorem step_vehicle (hw : Bool) (c : CanBusController) (act : Action) :
    sameVehicle c (step hw c act).1 ∨
      ∃ d, act = Action.timeout d ∧ (step hw c act).1 = updateVehicle d c := by
  unfold step
  split_ifs with he
  · cases act with
    | connectToSimulator a => exact Or.inl (connectToSimulator_vehicle hw a c)
    | connectToBus i a => exact Or.inl (connectToBus_vehicle hw i a c)
    | disconnectFromSimulator a => exact Or.inl (disconnectFromSimulator_vehicle hw a c)
    | sendFrame frameId data => exact Or.inl (sendFrame_vehicle hw frameId data c)
    | timeout d => exact Or.inr ⟨d, rfl, rfl⟩
    | framesReceived frames => exact Or.inl (handleFramesReceived_vehicle frames c)
    | errorOccurred e => exact Or.inl (handleErrorOccurred_vehicle e c)
    | stateChanged st => exact Or.inl (handleStateChanged_vehicle st c)
  · exact Or.inl (sameVehicle_refl c)

theorem inRange_of_sameVehicle {c c1 : CanBusController} (h : sameVehicle c c1)
    (hc : inRange c) : inRange c1 := by
  unfold inRange
  unfold inRange at hc
  obtain ⟨h1, h2, h3, h4, -⟩ := h
  rw [h1, h2, h3, h4]
  exact hc

theorem signalsExclusive_of_sameVehicle {c c1 : CanBusController} (h : sameVehicle c c1)
    (hc : signalsExclusive c) : signalsExclusive c1 := by
  unfold signalsExclusive
  unfold signalsExclusive at hc
  obtain ⟨-, -, -, -, h5, h6, -⟩ := h
  rw [h5, h6]
  exact hc

/-- The ranges and the exclusion of the turn signals hold in every state a run
of the controller reaches from a state in which they hold. -/
theorem run_invariants (hw : Bool) (acts : List Action) (c : CanBusController)
    (hc : inRange c ∧ signalsExclusive c) :
    inRange (run hw c acts) ∧ signalsExclusive (run hw c acts) := by
  induction acts generalizing c with
  | nil => exact hc
  | cons act acts ih =>
    apply ih
    rcases step_vehicle hw c act with h | ⟨d, -, h⟩
    · exact ⟨inRange_of_sameVehicle h hc.1, signalsExclusive_of_sameVehicle h hc.2⟩
    · rw [h]
      exact ⟨updateVehicle_inRange d c hc.1.2.2.1,
        updateVehicle_signals_exclusive d c (Or.inl hc.2)⟩

/-- Every state reachable from construction has its vehicle values in range
and at most one turn signal set. -/
theorem reachable_invariants (hw : Bool) (c : CanBusController) (h : Reachable hw c) :
    inRange c ∧ signalsExclusive c := by
  obtain ⟨acts, rfl⟩ := h
  exact run_invariants hw acts construct ⟨construct_inRange, by unfold signalsExclusive; decide⟩

/-! ## The simulation tick: invariants -/

/-- C1: starting from the constructor defaults, after each tick of every finite
sequence of ticks whose draws lie in the ranges of the generator, speed is in
[0,120], rpm in [700,6000], fuelLevel in [0,100] and engineTemp in [70,110].
The state after the first `k` ticks is `runTicks construct (ds.take k)`. -/
theorem C1_tick_range_invariant (ds : List Draws) (_hvalid : ∀ d ∈ ds, d.valid) (k : Nat) :
    (0 ≤ (runTicks construct (ds.take k)).m_speed ∧
      (runTicks construct (ds.take k)).m_speed ≤ 120) ∧
    (700 ≤ (runTicks construct (ds.take k)).m_rpm ∧
      (runTicks construct (ds.take k)).m_rpm ≤ 6000) ∧
    (0 ≤ (runTicks construct (ds.take k)).m_fuelLevel ∧
      (runTicks construct (ds.take k)).m_fuelLevel ≤ 100) ∧
    (70 ≤ (runTicks construct (ds.take k)).m_engineTemp ∧
      (runTicks construct (ds.take k)).m_engineTemp ≤ 110) :=
  runTicks_inRange (ds.take k) construct construct_inRange

/-- Witness of C1: two ticks with the largest upward draws, then one with the
largest downward draws, observed after the second tick. -/
theorem C1_tick_range_invariant_witness :
    (∀ d ∈ [maxDraws, maxDraws, minDraws], d.valid) ∧
    ((0 ≤ (runTicks construct ([maxDraws, maxDraws, minDraws].take 2)).m_speed ∧
      (runTicks construct ([maxDraws, maxDraws, minDraws].take 2)).m_speed ≤ 120) ∧
    (700 ≤ (runTicks construct ([maxDraws, maxDraws, minDraws].take 2)).m_rpm ∧
      (runTicks construct ([maxDraws, maxDraws, minDraws].take 2)).m_rpm ≤ 6000) ∧
    (0 ≤ (runTicks construct ([maxDraws, maxDraws, minDraws].take 2)).m_fuelLevel ∧
      (runTicks construct ([maxDraws, maxDraws, minDraws].take 2)).m_fuelLevel ≤ 100) ∧
    (70 ≤ (runTicks construct ([maxDraws, maxDraws, minDraws].take 2)).m_engineTemp ∧
      (runTicks construct ([maxDraws, maxDraws, minDraws].take 2)).m_engineTemp ≤ 110)) :=
  ⟨by decide, C1_tick_range_invariant [maxDraws, maxDraws, minDraws] (by decide) 2⟩

/-- C2, as stated, fails: from a prior state with both turn signals set, a tick
in which neither 2% draw fires leaves both set, and byte 1 of the 0x600 frame
it emits is 3, with bit0 and bit1 both set. -/
theorem C2_both_signals_survive_quiet_tick :
    quietDraws.valid ∧
    (simulateVehicleData quietDraws bothSignalsSet).1.m_leftTurnSignal = true ∧
    (simulateVehicleData quietDraws bothSignalsSet).1.m_rightTurnSignal = true ∧
    (simulateVehicleData quietDraws bothSignalsSet).2.getLast? =
      some (Effect.frameReceived 0x600 [0, 3, 0, 0, 0, 0, 0, 0]) ∧
    Nat.testBit 3 0 = true ∧ Nat.testBit 3 1 = true := by
  decide

/-- C2, amended: if the prior state does not have both turn signals set (as in
the constructor defaults), or if at least one of the two 2% draws fires, then
after the tick at most one of leftTurnSignal and rightTurnSignal is true, and
byte 1 of the 0x600 frame the tick emits does not have bit0 and bit1 both set. -/
theorem C2_turn_signals_exclusive (d : Draws) (c : CanBusController)
    (h : ¬(c.m_leftTurnSignal = true ∧ c.m_rightTurnSignal = true) ∨
      d.leftDraw < 2 ∨ d.rightDraw < 2) :
    ¬((simulateVehicleData d c).1.m_leftTurnSignal = true ∧
      (simulateVehicleData d c).1.m_rightTurnSignal = true) ∧
    ∀ p, Effect.frameReceived 0x600 p ∈ (simulateVehicleData d c).2 →
      ¬((p.getD 1 0).testBit 0 = true ∧ (p.getD 1 0).testBit 1 = true) := by
  have key : ¬((updateVehicle d c).m_leftTurnSignal = true ∧
      (updateVehicle d c).m_rightTurnSignal = true) :=
    updateVehicle_signals_exclusive d c h
  refine ⟨key, ?_⟩
  intro p hp
  rw [simulateVehicleData_snd] at hp
  rw [mem_emitFrames_signals _ p hp, signalsData_eq]
  revert key
  cases (updateVehicle d c).m_leftTurnSignal <;>
    cases (updateVehicle d c).m_rightTurnSignal <;>
    cases (updateVehicle d c).m_headlights <;> decide

/-- Witness of C2 (amended): a tick from the constructed state in which both
draws fire. -/
theorem C2_turn_signals_exclusive_witness :
    (¬(construct.m_leftTurnSignal = true ∧ construct.m_rightTurnSignal = true) ∨
      maxDraws.leftDraw < 2 ∨ maxDraws.rightDraw < 2) ∧
    (¬((simulateVehicleData maxDraws construct).1.m_leftTurnSignal = true ∧
      (simulateVehicleData maxDraws construct).1.m_rightTurnSignal = true) ∧
    ∀ p, Effect.frameReceived 0x600 p ∈ (simulateVehicleData maxDraws construct).2 →
      ¬((p.getD 1 0).testBit 0 = true ∧ (p.getD 1 0).testBit 1 = true)) :=
  ⟨by decide, C2_turn_signals_exclusive maxDraws construct (by decide)⟩

/-- C3: for every prior state and every draw, after a tick the stored
engineRunning flag equals (rpm > 500) for the rpm stored by the same tick. -/
theorem C3_engineRunning_iff_rpm (d : Draws) (c : CanBusController) :
    (simulateVehicleData d c).1.m_engineRunning =
      decide ((simulateVehicleData d c).1.m_rpm > 500) := by
  rw [simulateVehicleData_fst]
  exact updateVehicle_engineRunning d c

/-! ## Frame encoders -/

/-- C4: for every speed in [0,120] the 0x200 payload is the 8 bytes
[lo,hi,lo,hi,lo,hi,lo,hi] with lo + 256*hi = speed*10 (no truncation), so
(lo + 256*hi)/10 recovers speed exactly; for speed 45 it is
[194,1,194,1,194,1,194,1]. -/
theorem C4_speed_frame_roundtrip (c : CanBusController)
    (h : 0 ≤ c.m_speed ∧ c.m_speed ≤ 120) :
    (∃ lo hi : Nat, speedData c = [lo, hi, lo, hi, lo, hi, lo, hi] ∧ lo < 256 ∧ hi < 256 ∧
      (lo : Int) + 256 * (hi : Int) = c.m_speed * 10 ∧
      ((lo : Int) + 256 * (hi : Int)) / 10 = c.m_speed) ∧
    (c.m_speed = 45 → speedData c = [194, 1, 194, 1, 194, 1, 194, 1]) := by
  constructor
  · refine ⟨toQuint16 (c.m_speed * 10) % 256, toQuint16 (c.m_speed * 10) / 256 % 256,
      speedData_eq c, ?_, ?_, ?_, ?_⟩ <;> unfold toQuint16 <;> omega
  · intro h45
    rw [speedData_eq, h45]
    decide

/-- Witness of C4: a controller at speed 45. -/
theorem C4_speed_frame_roundtrip_witness :
    (0 ≤ cruising.m_speed ∧ cruising.m_speed ≤ 120) ∧
    ((∃ lo hi : Nat, speedData cruising = [lo, hi, lo, hi, lo, hi, lo, hi] ∧
      lo < 256 ∧ hi < 256 ∧
      (lo : Int) + 256 * (hi : Int) = cruising.m_speed * 10 ∧
      ((lo : Int) + 256 * (hi : Int)) / 10 = cruising.m_speed) ∧
    (cruising.m_speed = 45 → speedData cruising = [194, 1, 194, 1, 194, 1, 194, 1])) :=
  ⟨by decide, C4_speed_frame_roundtrip cruising (by decide)⟩

/-- C5: for rpm in [700,6000], engineTemp in [70,110] and speed in [0,120], the
0x100 payload has bytes 0-1 the little-endian u16 of exactly rpm*4, byte 2 = 50,
byte 3 = engineTemp + 40, byte 4 = min(100, speed*2), byte 5 = 150, byte 6 = 0
(byte 7 is the fuel field). -/
theorem C5_engine_frame (c : CanBusController)
    (hrpm : 700 ≤ c.m_rpm ∧ c.m_rpm ≤ 6000)
    (htemp : 70 ≤ c.m_engineTemp ∧ c.m_engineTemp ≤ 110)
    (hspeed : 0 ≤ c.m_speed ∧ c.m_speed ≤ 120) :
    ∃ lo hi b3 b4 b7 : Nat, engineData c = [lo, hi, 50, b3, b4, 150, 0, b7] ∧
      lo < 256 ∧ hi < 256 ∧ (lo : Int) + 256 * (hi : Int) = c.m_rpm * 4 ∧
      (b3 : Int) = c.m_engineTemp + 40 ∧ (b4 : Int) = min 100 (c.m_speed * 2) := by
  refine ⟨_, _, _, _, _, engineData_eq c, ?_, ?_, ?_, ?_, ?_⟩
  · unfold toQuint16; omega
  · unfold toQuint16; omega
  · unfold toQuint16; omega
  · unfold toChar; omega
  · unfold toChar qMin
    split_ifs <;> omega

/-- Witness of C5: rpm 6000, temp 110 and speed 120, the upper ends. -/
theorem C5_engine_frame_witness :
    (700 ≤ upperLimits.m_rpm ∧ upperLimits.m_rpm ≤ 6000) ∧
    (70 ≤ upperLimits.m_engineTemp ∧ upperLimits.m_engineTemp ≤ 110) ∧
    (0 ≤ upperLimits.m_speed ∧ upperLimits.m_speed ≤ 120) ∧
    ∃ lo hi b3 b4 b7 : Nat, engineData upperLimits = [lo, hi, 50, b3, b4, 150, 0, b7] ∧
      lo < 256 ∧ hi < 256 ∧ (lo : Int) + 256 * (hi : Int) = upperLimits.m_rpm * 4 ∧
      (b3 : Int) = upperLimits.m_engineTemp + 40 ∧
      (b4 : Int) = min 100 (upperLimits.m_speed * 2) :=
  ⟨by decide, by decide, by decide,
    C5_engine_frame upperLimits (by decide) (by decide) (by decide)⟩

/-- C6: for every speed in [0,120], the 0x400 payload is [0,0,2,0,0,0,0,0] when
speed = 0 (low nibble of byte 0 is 0, byte 2 is 0x02) and [3,0,0,0,0,0,0,0] when
speed > 0 (low nibble of byte 0 is 3, byte 2 is 0x00); in both cases the high
nibble of byte 0 and all other bytes are zero. -/
theorem C6_transmission_frame (c : CanBusController)
    (h : 0 ≤ c.m_speed ∧ c.m_speed ≤ 120) :
    (c.m_speed = 0 → transData c = [0, 0, 2, 0, 0, 0, 0, 0] ∧
      (transData c).getD 0 0 % 16 = 0 ∧ (transData c).getD 2 0 = 0x02) ∧
    (c.m_speed > 0 → transData c = [3, 0, 0, 0, 0, 0, 0, 0] ∧
      (transData c).getD 0 0 % 16 = 3 ∧ (transData c).getD 2 0 = 0x00) ∧
    (transData c).getD 0 0 / 16 = 0 ∧
    (∀ i, i ≠ 0 → i ≠ 2 → (transData c).getD i 0 = 0) ∧
    (transData c).length = 8 := by
  have h0 : c.m_speed = 0 → transData c = [0, 0, 2, 0, 0, 0, 0, 0] := by
    intro hs
    unfold transData
    rw [hs]
    decide
  have h1 : c.m_speed > 0 → transData c = [3, 0, 0, 0, 0, 0, 0, 0] := by
    intro hs
    have hne : ¬ c.m_speed = 0 := by omega
    unfold transData
    rw [if_pos hs, if_neg hne]
    decide
  have others : ∀ i, i ≠ 0 → i ≠ 2 → ∀ a b : Nat, [a, 0, b, 0, 0, 0, 0, 0].getD i 0 = 0 := by
    intro i hi0 hi2 a b
    match i with
    | 0 => exact absurd rfl hi0
    | 1 => rfl
    | 2 => exact absurd rfl hi2
    | 3 => rfl
    | 4 => rfl
    | 5 => rfl
    | 6 => rfl
    | 7 => rfl
    | n + 8 => rfl
  have hcases : 0 < c.m_speed ∨ 0 = c.m_speed := by omega
  rcases hcases with hpos | hzero
  · have e := h1 hpos
    refine ⟨fun hs => absurd hs (by omega), fun _ => ⟨e, by rw [e]; decide, by rw [e]; decide⟩,
      by rw [e]; decide, fun i hi0 hi2 => by rw [e]; exact others i hi0 hi2 3 0,
      by rw [e]; decide⟩
  · have e := h0 hzero.symm
    refine ⟨fun _ => ⟨e, by rw [e]; decide, by rw [e]; decide⟩,
      fun hs => absurd hs (by omega),
      by rw [e]; decide, fun i hi0 hi2 => by rw [e]; exact others i hi0 hi2 0 2,
      by rw [e]; decide⟩

/-- Witness of C6: a controller at speed 30. -/
theorem C6_transmission_frame_witness :
    (0 ≤ inTown.m_speed ∧ inTown.m_speed ≤ 120) ∧
    ((inTown.m_speed = 0 → transData inTown = [0, 0, 2, 0, 0, 0, 0, 0] ∧
      (transData inTown).getD 0 0 % 16 = 0 ∧ (transData inTown).getD 2 0 = 0x02) ∧
    (inTown.m_speed > 0 → transData inTown = [3, 0, 0, 0, 0, 0, 0, 0] ∧
      (transData inTown).getD 0 0 % 16 = 3 ∧ (transData inTown).getD 2 0 = 0x00) ∧
    (transData inTown).getD 0 0 / 16 = 0 ∧
    (∀ i, i ≠ 0 → i ≠ 2 → (transData inTown).getD i 0 = 0) ∧
    (transData inTown).length = 8) :=
  ⟨by decide, C6_transmission_frame inTown (by decide)⟩

/-- C7: for every combination of the three booleans, the 0x600 payload has
byte 0 = 0, byte 1 = (1 if leftTurnSignal) + (2 if rightTurnSignal) +
(4 if headlights) and bytes 2-7 = 0; bit0, bit1 and bit2 of byte 1 recover
leftTurnSignal, rightTurnSignal and headlights. -/
theorem C7_warning_lights_frame (c : CanBusController) :
    signalsData c =
      [0, (if c.m_leftTurnSignal then 1 else 0) + (if c.m_rightTurnSignal then 2 else 0) +
            (if c.m_headlights then 4 else 0), 0, 0, 0, 0, 0, 0] ∧
    ((signalsData c).getD 1 0).testBit 0 = c.m_leftTurnSignal ∧
    ((signalsData c).getD 1 0).testBit 1 = c.m_rightTurnSignal ∧
    ((signalsData c).getD 1 0).testBit 2 = c.m_headlights := by
  refine ⟨signalsData_eq c, ?_, ?_, ?_⟩ <;> rw [signalsData_eq] <;>
    cases c.m_leftTurnSignal <;> cases c.m_rightTurnSignal <;> cases c.m_headlights <;> decide

/-- C8: for every prior state and every draw, one tick emits exactly five
frameReceived notifications, with identifiers 0x100, 0x200, 0x400, 0x500, 0x600
in that order, and every payload is exactly 8 bytes long. -/
theorem C8_tick_emits_five_frames (d : Draws) (c : CanBusController) :
    ∃ p1 p2 p3 p4 p5 : List Nat,
      (simulateVehicleData d c).2 =
        [Effect.frameReceived 0x100 p1, Effect.frameReceived 0x200 p2,
         Effect.frameReceived 0x400 p3, Effect.frameReceived 0x500 p4,
         Effect.frameReceived 0x600 p5] ∧
      p1.length = 8 ∧ p2.length = 8 ∧ p3.length = 8 ∧ p4.length = 8 ∧ p5.length = 8 := by
  refine ⟨_, _, _, _, _, rfl, ?_, ?_, ?_, ?_, ?_⟩
  · rw [engineData_eq]; rfl
  · rw [speedData_eq]; rfl
  · simp [transData]
  · simp [batteryData]
  · rw [signalsData_eq]; rfl

/-! ## Connection handling -/

/-- C9 fails on the code, built with HAVE_QT_SERIALBUS.  First run: construct,
connectToBus with the device created and connecting, connectToSimulator; the
device held before the call is still held after it and the timer runs.
Second run: the device also reports ConnectedState before connectToSimulator,
whose nested disconnectFromSimulator deletes it but creates and keeps a new
one; again the timer runs while a device is held. -/
theorem C9_timer_runs_while_device_held :
    ((run true construct [Action.connectToBus "vcan0" busUp]).m_canDevice = some 1 ∧
      (run true construct [Action.connectToBus "vcan0" busUp,
        Action.connectToSimulator busUp]).m_canDevice = some 1 ∧
      (run true construct [Action.connectToBus "vcan0" busUp,
        Action.connectToSimulator busUp]).timerActive = true) ∧
    ((run true construct [Action.connectToBus "vcan0" busUp,
        Action.stateChanged CanBusDeviceState.ConnectedState,
        Action.connectToSimulator busUpAgain]).m_canDevice = some 2 ∧
      (run true construct [Action.connectToBus "vcan0" busUp,
        Action.stateChanged CanBusDeviceState.ConnectedState,
        Action.connectToSimulator busUpAgain]).timerActive = true) := by
  decide

/-- C10, as stated, fails: after connectToSimulator, one tick that raises the
speed to 2 and disconnectFromSimulator (no hardware), the status is not
"Simulation Mode Active", yet connectToSimulator leaves speed 2 and rpm 850
instead of the defaults 0 and 800. -/
theorem C10_connectToSimulator_keeps_stale_vehicle_state :
    (run false construct [Action.connectToSimulator busAbsent,
        Action.timeout { quietDraws with speedChange := 2 },
        Action.disconnectFromSimulator busAbsent]).m_status ≠ "Simulation Mode Active" ∧
    (run false construct [Action.connectToSimulator busAbsent,
        Action.timeout { quietDraws with speedChange := 2 },
        Action.disconnectFromSimulator busAbsent,
        Action.connectToSimulator busAbsent]).m_status = "Simulation Mode Active" ∧
    (run false construct [Action.connectToSimulator busAbsent,
        Action.timeout { quietDraws with speedChange := 2 },
        Action.disconnectFromSimulator busAbsent,
        Action.connectToSimulator busAbsent]).m_speed = 2 ∧
    (run false construct [Action.connectToSimulator busAbsent,
        Action.timeout { quietDraws with speedChange := 2 },
        Action.disconnectFromSimulator busAbsent,
        Action.connectToSimulator busAbsent]).m_rpm = 850 := by
  decide

/-- C10, amended: connectToSimulator does not touch the vehicle state: for
every state, with or without hardware support, speed, rpm, fuelLevel,
engineTemp, the turn signals, headlights and engineRunning are after the call
what they were before it.  The fixed defaults speed 0, rpm 800, fuelLevel 85,
engineTemp 90 and all three flags false are what the constructor leaves. -/
theorem C10_connectToSimulator_preserves_vehicle_state (hw : Bool) (a : Adapter)
    (c : CanBusController) :
    ((connectToSimulator hw a c).1.m_speed = c.m_speed ∧
      (connectToSimulator hw a c).1.m_rpm = c.m_rpm ∧
      (connectToSimulator hw a c).1.m_fuelLevel = c.m_fuelLevel ∧
      (connectToSimulator hw a c).1.m_engineTemp = c.m_engineTemp ∧
      (connectToSimulator hw a c).1.m_leftTurnSignal = c.m_leftTurnSignal ∧
      (connectToSimulator hw a c).1.m_rightTurnSignal = c.m_rightTurnSignal ∧
      (connectToSimulator hw a c).1.m_headlights = c.m_headlights ∧
      (connectToSimulator hw a c).1.m_engineRunning = c.m_engineRunning) ∧
    (construct.m_speed = 0 ∧ construct.m_rpm = 800 ∧ construct.m_fuelLevel = 85 ∧
      construct.m_engineTemp = 90 ∧ construct.m_leftTurnSignal = false ∧
      construct.m_rightTurnSignal = false ∧ construct.m_headlights = false) := by
  exact ⟨connectToSimulator_vehicle hw a c, by decide⟩

/-- C11, as stated, fails: `connectToBus` on a constructed controller ends in
"Simulation Mode Active" with connected = true and the timer running when the
device cannot be created, when it is created but does not connect, and when
there is no hardware support. -/
theorem C11_connectToBus_failure_starts_simulation :
    ((connectToBus true "vcan0" busAbsent construct).1.m_status = "Simulation Mode Active" ∧
      (connectToBus true "vcan0" busAbsent construct).1.m_connected = true ∧
      (connectToBus true "vcan0" busAbsent construct).1.timerActive = true) ∧
    ((connectToBus true "vcan0" busRefuses construct).1.m_status = "Simulation Mode Active" ∧
      (connectToBus true "vcan0" busRefuses construct).1.m_connected = true ∧
      (connectToBus true "vcan0" busRefuses construct).1.timerActive = true) ∧
    ((connectToBus false "vcan0" busAbsent construct).1.m_status = "Simulation Mode Active" ∧
      (connectToBus false "vcan0" busAbsent construct).1.m_connected = true ∧
      (connectToBus false "vcan0" busAbsent construct).1.timerActive = true) := by
  decide

/-- C11, amended: when connectToBus is called in a not-connected state and
there is no hardware support, or adapter creation fails, or the connect fails,
the controller falls back to simulation: with hardware support the adapter
handle is null afterwards, the status is "Simulation Mode Active", connected is
true, the timer runs at 100 ms, and connectedChanged(true) then
statusChanged("Simulation Mode Active") are emitted. -/
theorem C11_connectToBus_failure_falls_back (hw : Bool) (interface : String) (a : Adapter)
    (c : CanBusController) (hc : c.m_connected = false)
    (hfail : hw = false ∨ a.createDevice = none ∨ a.connectDevice = false) :
    (hw = true → (connectToBus hw interface a c).1.m_canDevice = none) ∧
    (connectToBus hw interface a c).1.m_status = "Simulation Mode Active" ∧
    (connectToBus hw interface a c).1.m_connected = true ∧
    (connectToBus hw interface a c).1.timerActive = true ∧
    (connectToBus hw interface a c).1.timerInterval = 100 ∧
    (connectToBus hw interface a c).2 =
      [Effect.connectedChanged true, Effect.statusChanged "Simulation Mode Active"] := by
  obtain ⟨created, connects⟩ := a
  unfold connectToBus startSimulationFallback createDevice deleteDevice
  simp only [hc]
  rcases hfail with h | h | h
  · subst h
    simp
  · simp only at h
    subst h
    cases hw <;> simp
  · simp only at h
    subst h
    cases hw <;> cases created <;> simp

/-- Witness of C11 (amended): the constructed controller, hardware on which the
device is created but does not connect. -/
theorem C11_connectToBus_failure_falls_back_witness :
    construct.m_connected = false ∧
    (true = false ∨ busRefuses.createDevice = none ∨ busRefuses.connectDevice = false) ∧
    ((true = true → (connectToBus true "vcan0" busRefuses construct).1.m_canDevice = none) ∧
    (connectToBus true "vcan0" busRefuses construct).1.m_status = "Simulation Mode Active" ∧
    (connectToBus true "vcan0" busRefuses construct).1.m_connected = true ∧
    (connectToBus true "vcan0" busRefuses construct).1.timerActive = true ∧
    (connectToBus true "vcan0" busRefuses construct).1.timerInterval = 100 ∧
    (connectToBus true "vcan0" busRefuses construct).2 =
      [Effect.connectedChanged true, Effect.statusChanged "Simulation Mode Active"]) :=
  ⟨by decide, by decide,
    C11_connectToBus_failure_falls_back true "vcan0" busRefuses construct (by decide)
      (by decide)⟩

/-- C12 fails on the code, built with HAVE_QT_SERIALBUS.  After
connectToSimulator and disconnectFromSimulator with the device created and
connecting, the status is "Connecting to CAN Bus...", the device has not
reported ConnectedState, m_connected is still true from simulation mode, and
sendFrame writes the frame to the device.  The same happens in simulation mode
when a device is held (connectToBus succeeded, then connectToSimulator). -/
theorem C12_sendFrame_writes_while_connecting :
    (connectingFromSimulation.m_status = "Connecting to CAN Bus..." ∧
      connectingFromSimulation.m_connected = true ∧
      connectingFromSimulation.m_canDevice = some 1 ∧
      (sendFrame true 0x123 [1, 2, 3, 4, 5, 6, 7, 8] connectingFromSimulation).2 =
        [Effect.writeFrame 0x123 [1, 2, 3, 4, 5, 6, 7, 8]]) ∧
    ((run true construct [Action.connectToBus "vcan0" busUp,
        Action.connectToSimulator busUp]).m_status = "Simulation Mode Active" ∧
      (sendFrame true 0x123 [1, 2, 3, 4, 5, 6, 7, 8]
        (run true construct [Action.connectToBus "vcan0" busUp,
          Action.connectToSimulator busUp])).2 =
        [Effect.writeFrame 0x123 [1, 2, 3, 4, 5, 6, 7, 8]]) := by
  decide

/-- C13, as stated, fails: connected to hardware (status "Connected to CAN
Bus"), sendFrame with a 3-byte payload, and with a 9-byte payload, writes the
frame to the device as it is. -/
theorem C13_short_payload_is_written :
    connectedToHardware.m_status = "Connected to CAN Bus" ∧
    [1, 2, 3].length ≠ 8 ∧
    (sendFrame true 0x123 [1, 2, 3] connectedToHardware).2 =
      [Effect.writeFrame 0x123 [1, 2, 3]] ∧
    [1, 2, 3, 4, 5, 6, 7, 8, 9].length ≠ 8 ∧
    (sendFrame true 0x123 [1, 2, 3, 4, 5, 6, 7, 8, 9] connectedToHardware).2 =
      [Effect.writeFrame 0x123 [1, 2, 3, 4, 5, 6, 7, 8, 9]] := by
  decide

/-- C13, amended: sendFrame applies no payload-length check.  In every state
and for payloads of any length it leaves the controller unchanged; it either
writes nothing or makes one write of the identifier and payload as given,
neither truncated nor padded; whether it writes does not depend on the
payload; and connected to hardware it writes every payload. -/
theorem C13_sendFrame_ignores_payload_length (hw : Bool) (frameId : Nat)
    (data other : List Nat) (c : CanBusController) :
    (sendFrame hw frameId data c).1 = c ∧
    ((sendFrame hw frameId data c).2 = [] ∨
      (sendFrame hw frameId data c).2 = [Effect.writeFrame frameId data]) ∧
    ((sendFrame hw frameId data c).2 = [] ↔ (sendFrame hw frameId other c).2 = []) ∧
    (sendFrame true frameId data connectedToHardware).2 =
      [Effect.writeFrame frameId data] := by
  have hdev : connectedToHardware.m_canDevice = some 1 := by decide
  have hcon : connectedToHardware.m_connected = true := by decide
  refine ⟨?_, ?_, ?_, ?_⟩
  · unfold sendFrame
    split_ifs <;> rfl
  · unfold sendFrame
    split_ifs <;> simp
  · unfold sendFrame
    split_ifs <;> simp
  · unfold sendFrame
    simp [hdev, hcon]

/-- C16: for every prior state and every draw, after a tick engineRunning is
true (rpm is clamped to at least 700 before the flag is recomputed), and the
fourth frame the tick emits is 0x500 with payload [0x78, 0x05, 0, 0, 0, 0, 0, 0],
1400 little-endian; the 1200 branch is not taken. -/
theorem C16_battery_frame_constant (d : Draws) (c : CanBusController) :
    (simulateVehicleData d c).1.m_engineRunning = true ∧
    (simulateVehicleData d c).2.getD 3 (Effect.frameReceived 0 []) =
      Effect.frameReceived 0x500 [0x78, 0x05, 0, 0, 0, 0, 0, 0] ∧
    (∀ p, Effect.frameReceived 0x500 p ∈ (simulateVehicleData d c).2 →
      p = [0x78, 0x05, 0, 0, 0, 0, 0, 0]) ∧
    0x78 + 256 * 0x05 = 1400 := by
  have hrun : (updateVehicle d c).m_engineRunning = true := by
    rw [updateVehicle_engineRunning, updateVehicle_rpm]
    have h := (qBound_mem 700 (800 + (updateVehicle d c).m_speed * 25 + d.rpmNoise) 6000
      (by decide)).1
    simp only [gt_iff_lt, decide_eq_true_eq]
    omega
  have hbat : batteryData (updateVehicle d c) = [0x78, 0x05, 0, 0, 0, 0, 0, 0] := by
    unfold batteryData
    rw [hrun]
    decide
  refine ⟨hrun, ?_, ?_, by decide⟩
  · rw [simulateVehicleData_snd]
    unfold emitFrames
    rw [hbat]
    rfl
  · intro p hp
    rw [simulateVehicleData_snd] at hp
    have hp2 : p = batteryData (updateVehicle d c) := by
      simpa [emitFrames] using hp
    rw [hp2, hbat]

/-! ## The fuel field -/

theorem fuelByte_bounds (c : CanBusController)
    (h : 0 ≤ c.m_fuelLevel ∧ c.m_fuelLevel ≤ 100) :
    ((engineData c).getD 7 0 : Int) * 392157 ≤ c.m_fuelLevel * 1000000 ∧
    c.m_fuelLevel * 1000000 < (((engineData c).getD 7 0 : Int) + 1) * 392157 ∧
    (engineData c).getD 7 0 ≤ 254 := by
  rw [engineData_eq]
  simp only [List.getD_cons_succ, List.getD_cons_zero]
  unfold toChar fuelRaw
  rw [Int.tdiv_eq_ediv (by omega) (by decide)]
  have hb : 0 ≤ c.m_fuelLevel * 1000000 / 392157 ∧
      c.m_fuelLevel * 1000000 / 392157 ≤ 254 := by omega
  have hm : (c.m_fuelLevel * 1000000 / 392157) % 256 = c.m_fuelLevel * 1000000 / 392157 := by
    omega
  rw [hm]
  omega

theorem fuel_exact_only_at_zero (raw : Nat) (f : Int) (h : 0 ≤ f ∧ f ≤ 100)
    (he : (raw : Int) * 392157 = f * 1000000) : f = 0 := by
  have hm : (f * 1000000) % 392157 = 0 := by
    rw [← he]
    exact Int.mul_emod_left _ _
  obtain ⟨h0, h1⟩ := h
  interval_cases f <;> first | rfl | (exfalso; revert hm; decide)

theorem fuelPhysical_eq (raw : Nat) :
    fuelPhysical raw = (raw : ℚ) * (392157 / 1000000) := rfl

/-- C14, as stated, fails in its second half: at the default fuelLevel 85 the
byte is 216 and 216 × 0.392157 = 84.705912, not 85; at fuelLevel 100 the byte
is 254 and 254 × 0.392157 = 99.607878, not 100. -/
theorem C14_fuel_decoding_is_not_the_inverse :
    (construct.m_fuelLevel = 85 ∧ (engineData construct).getD 7 0 = 216 ∧
      fuelPhysical ((engineData construct).getD 7 0) = 84705912 / 1000000 ∧
      fuelPhysical ((engineData construct).getD 7 0) ≠ ((85 : Int) : ℚ)) ∧
    (upperLimits.m_fuelLevel = 100 ∧ (engineData upperLimits).getD 7 0 = 254 ∧
      fuelPhysical ((engineData upperLimits).getD 7 0) = 99607878 / 1000000 ∧
      fuelPhysical ((engineData upperLimits).getD 7 0) ≠ ((100 : Int) : ℚ)) := by
  have h85 : (engineData construct).getD 7 0 = 216 := by decide
  have h100 : (engineData upperLimits).getD 7 0 = 254 := by decide
  rw [h85, h100, fuelPhysical_eq, fuelPhysical_eq]
  refine ⟨⟨by decide, rfl, ?_, ?_⟩, ⟨by decide, rfl, ?_, ?_⟩⟩ <;> norm_num

/-- C14, amended: for every integer fuelLevel in [0,100], byte 7 of the 0x100
frame is raw = fuelLevel / 0.392157 truncated toward zero (0.392157 as the exact
rational 392157/1000000; raw fits in 0..255).  Decoding physical = raw × 0.392157
is not an exact inverse: fuelLevel - 0.392157 < physical ≤ fuelLevel, with
equality only for fuelLevel = 0, and rounding physical to the nearest integer
recovers the fuelLevel that was encoded. -/
theorem C14_fuel_byte_truncates (c : CanBusController)
    (h : 0 ≤ c.m_fuelLevel ∧ c.m_fuelLevel ≤ 100) :
    (engineData c).getD 7 0 ≤ 255 ∧
    (((engineData c).getD 7 0 : Nat) : ℚ) ≤ (c.m_fuelLevel : ℚ) / fuelScale ∧
    (c.m_fuelLevel : ℚ) / fuelScale < (((engineData c).getD 7 0 : Nat) : ℚ) + 1 ∧
    (c.m_fuelLevel : ℚ) - fuelScale < fuelPhysical ((engineData c).getD 7 0) ∧
    fuelPhysical ((engineData c).getD 7 0) ≤ (c.m_fuelLevel : ℚ) ∧
    (fuelPhysical ((engineData c).getD 7 0) = (c.m_fuelLevel : ℚ) ↔ c.m_fuelLevel = 0) ∧
    round (fuelPhysical ((engineData c).getD 7 0)) = c.m_fuelLevel := by
  obtain ⟨h1, h2, h3⟩ := fuelByte_bounds c h
  generalize (engineData c).getD 7 0 = raw at h1 h2 h3 ⊢
  generalize c.m_fuelLevel = f at h h1 h2 ⊢
  have q1 : (raw : ℚ) * 392157 ≤ (f : ℚ) * 1000000 := by exact_mod_cast h1
  have q2 : (f : ℚ) * 1000000 < ((raw : ℚ) + 1) * 392157 := by exact_mod_cast h2
  have hs : fuelScale = 392157 / 1000000 := rfl
  rw [fuelPhysical_eq, hs]
  refine ⟨by omega, ?_, ?_, ?_, ?_, ?_, ?_⟩
  · rw [le_div_iff₀ (by norm_num)]
    linarith
  · rw [div_lt_iff₀ (by norm_num)]
    linarith
  · linarith
  · linarith
  · constructor
    · intro he
      have he2 : (raw : ℚ) * 392157 = (f : ℚ) * 1000000 := by linarith
      have he3 : (raw : Int) * 392157 = f * 1000000 := by exact_mod_cast he2
      exact fuel_exact_only_at_zero raw f h he3
    · intro hf
      have hr : raw = 0 := by omega
      rw [hf, hr]
      norm_num
  · rw [round_eq, Int.floor_eq_iff]
    constructor <;> linarith

/-- Witness of C14 (amended): the constructed controller, fuelLevel 85. -/
theorem C14_fuel_byte_truncates_witness :
    (0 ≤ construct.m_fuelLevel ∧ construct.m_fuelLevel ≤ 100) ∧
    ((engineData construct).getD 7 0 ≤ 255 ∧
    (((engineData construct).getD 7 0 : Nat) : ℚ) ≤ (construct.m_fuelLevel : ℚ) / fuelScale ∧
    (construct.m_fuelLevel : ℚ) / fuelScale < (((engineData construct).getD 7 0 : Nat) : ℚ) + 1 ∧
    (construct.m_fuelLevel : ℚ) - fuelScale < fuelPhysical ((engineData construct).getD 7 0) ∧
    fuelPhysical ((engineData construct).getD 7 0) ≤ (construct.m_fuelLevel : ℚ) ∧
    (fuelPhysical ((engineData construct).getD 7 0) = (construct.m_fuelLevel : ℚ) ↔
      construct.m_fuelLevel = 0) ∧
    round (fuelPhysical ((engineData construct).getD 7 0)) = construct.m_fuelLevel) :=
  ⟨by decide, C14_fuel_byte_truncates construct (by decide)⟩

/-! ## Simulation mode is entered once -/

theorem error_status_ne (e : String) : "Error: " ++ e ≠ "Simulation Mode Active" := by
  intro h
  have h2 := congrArg String.data h
  rw [String.data_append] at h2
  have h3 : ("Error: ".data ++ e.data).head? = "Simulation Mode Active".data.head? := by
    rw [h2]
  have h4 : ("Error: ".data ++ e.data).head? = some 'E' := rfl
  have h5 : "Simulation Mode Active".data.head? = some 'S' := rfl
  rw [h4, h5] at h3
  exact absurd h3 (by decide)

theorem connectToSimulator_status (hw : Bool) (a : Adapter) (c : CanBusController) :
    (connectToSimulator hw a c).1.m_status = "Simulation Mode Active" := by
  by_cases hs : c.m_status = "Simulation Mode Active"
  · unfold connectToSimulator
    rw [if_neg (not_not.mpr hs)]
    exact hs
  · unfold connectToSimulator
    rw [if_pos hs]

theorem connectToSimulator_entered (hw : Bool) (a : Adapter) (c : CanBusController)
    (hs : c.m_status ≠ "Simulation Mode Active") :
    (connectToSimulator hw a c).1.m_connected = true ∧
    (connectToSimulator hw a c).1.timerActive = true ∧
    (connectToSimulator hw a c).1.timerInterval = 100 := by
  unfold connectToSimulator
  rw [if_pos hs]
  exact ⟨rfl, rfl, rfl⟩

theorem connectToSimulator_consistent (hw : Bool) (a : Adapter) (c : CanBusController)
    (hc : simulationConsistent c) : simulationConsistent (connectToSimulator hw a c).1 := by
  by_cases hs : c.m_status = "Simulation Mode Active"
  · unfold connectToSimulator
    rw [if_neg (not_not.mpr hs)]
    exact hc
  · intro _
    exact connectToSimulator_entered hw a c hs

theorem disconnectFromSimulator_consistent (hw : Bool) (a : Adapter) (c : CanBusController) :
    simulationConsistent (disconnectFromSimulator hw a c).1 := by
  obtain ⟨created, connects⟩ := a
  unfold simulationConsistent disconnectFromSimulator noCanBusAvailable createDevice
    deleteDevice
  cases hw <;> cases connects <;> cases created <;> cases c.m_canDevice <;> simp

theorem connectToBus_consistent (hw : Bool) (i : String) (a : Adapter) (c : CanBusController)
    (hc : simulationConsistent c) : simulationConsistent (connectToBus hw i a c).1 := by
  obtain ⟨created, connects⟩ := a
  unfold connectToBus startSimulationFallback createDevice deleteDevice
  by_cases hcon : c.m_connected = true
  · rw [if_pos hcon]
    exact hc
  · rw [if_neg hcon]
    unfold simulationConsistent
    cases hw <;> cases connects <;> cases created <;> simp

theorem updateVehicle_connection (d : Draws) (c : CanBusController) :
    (updateVehicle d c).m_status = c.m_status ∧
    (updateVehicle d c).m_connected = c.m_connected ∧
    (updateVehicle d c).timerActive = c.timerActive ∧
    (updateVehicle d c).timerInterval = c.timerInterval := by
  unfold updateVehicle updateHeadlights incrementTimeCounter toggleRightTurnSignal
    toggleLeftTurnSignal updateEngineTemp updateFuelLevel updateEngineRunning updateRpm
    updateSpeed
  simp only []
  split_ifs <;> exact ⟨rfl, rfl, rfl, rfl⟩

theorem handleErrorOccurred_consistent (e : String) (c : CanBusController)
    (hc : simulationConsistent c) : simulationConsistent (handleErrorOccurred e c).1 := by
  unfold handleErrorOccurred
  split_ifs
  · intro hs
    exact absurd hs (error_status_ne e)
  · exact hc

theorem handleStateChanged_consistent (st : CanBusDeviceState) (c : CanBusController)
    (hc : simulationConsistent c) : simulationConsistent (handleStateChanged st c).1 := by
  cases st
  · intro hs
    have hs2 : "Disconnected from CAN Bus" = "Simulation Mode Active" := hs
    exact absurd hs2 (by decide)
  · intro hs
    have hs2 : "Connecting to CAN Bus" = "Simulation Mode Active" := hs
    exact absurd hs2 (by decide)
  · intro hs
    have hs2 : "Connected to CAN Bus" = "Simulation Mode Active" := hs
    exact absurd hs2 (by decide)
  · exact hc

theorem step_consistent (hw : Bool) (c : CanBusController) (act : Action)
    (hc : simulationConsistent c) : simulationConsistent (step hw c act).1 := by
  unfold step
  split_ifs with he
  · cases act with
    | connectToSimulator a => exact connectToSimulator_consistent hw a c hc
    | connectToBus i a => exact connectToBus_consistent hw i a c hc
    | disconnectFromSimulator a => exact disconnectFromSimulator_consistent hw a c
    | sendFrame frameId data =>
      simp only [sendFrame]
      split_ifs <;> exact hc
    | timeout d =>
      obtain ⟨h1, h2, h3, h4⟩ := updateVehicle_connection d c
      intro hs
      simp only [simulateVehicleData] at hs ⊢
      rw [h1] at hs
      rw [h2, h3, h4]
      exact hc hs
    | framesReceived frames =>
      simp only [handleFramesReceived]
      split_ifs <;> exact hc
    | errorOccurred e => exact handleErrorOccurred_consistent e c hc
    | stateChanged st => exact handleStateChanged_consistent st c hc
  · exact hc

/-- In every state reachable from construction, simulation mode means
connected with the timer running at 100 ms. -/
theorem reachable_consistent (hw : Bool) (c : CanBusController) (h : Reachable hw c) :
    simulationConsistent c := by
  obtain ⟨acts, rfl⟩ := h
  have gen : ∀ (acts : List Action) (c0 : CanBusController),
      simulationConsistent c0 → simulationConsistent (run hw c0 acts) := by
    intro acts
    induction acts with
    | nil => intro c0 h0; exact h0
    | cons act acts ih => intro c0 h0; exact ih _ (step_consistent hw c0 act h0)
  exact gen acts construct (fun hs => absurd hs (by decide))

/-- C15: for every state, a second connectToSimulator right after a first one
(whatever the hardware does at either call) leaves the controller exactly as
the first call left it (status, connected, vehicle state, adapter handle,
timer) and emits nothing.  After the first call the status is "Simulation Mode
Active"; if the state before it was not in simulation mode, or is reachable
from construction, then connected is true and the timer runs at 100 ms. -/
theorem C15_connectToSimulator_idempotent (hw : Bool) (a a2 : Adapter)
    (c : CanBusController) :
    connectToSimulator hw a2 (connectToSimulator hw a c).1 =
      ((connectToSimulator hw a c).1, []) ∧
    (connectToSimulator hw a c).1.m_status = "Simulation Mode Active" ∧
    (c.m_status ≠ "Simulation Mode Active" ∨ Reachable hw c →
      (connectToSimulator hw a c).1.m_connected = true ∧
      (connectToSimulator hw a c).1.timerActive = true ∧
      (connectToSimulator hw a c).1.timerInterval = 100) := by
  have hst := connectToSimulator_status hw a c
  refine ⟨?_, hst, ?_⟩
  · generalize (connectToSimulator hw a c).1 = c1 at hst
    unfold connectToSimulator
    rw [if_neg (not_not.mpr hst)]
  · intro h
    rcases h with h | h
    · exact connectToSimulator_entered hw a c h
    · exact connectToSimulator_consistent hw a c (reachable_consistent hw c h) hst

/-- Witness of C15: the constructed controller, which is reachable and not in
simulation mode. -/
theorem C15_connectToSimulator_idempotent_witness :
    (construct.m_status ≠ "Simulation Mode Active" ∨ Reachable true construct) ∧
    (connectToSimulator true busUp (connectToSimulator true busAbsent construct).1 =
      ((connectToSimulator true busAbsent construct).1, []) ∧
    (connectToSimulator true busAbsent construct).1.m_status = "Simulation Mode Active" ∧
    (construct.m_status ≠ "Simulation Mode Active" ∨ Reachable true construct →
      (connectToSimulator true busAbsent construct).1.m_connected = true ∧
      (connectToSimulator true busAbsent construct).1.timerActive = true ∧
      (connectToSimulator true busAbsent construct).1.timerInterval = 100)) :=
  ⟨Or.inr ⟨[], rfl⟩, C15_connectToSimulator_idempotent true busAbsent busUp construct⟩

end CanBusController

end VehicleSys
